import Mathlib

/-
Shallow embedding of the API client facade of the real-estate-agent repository.

The embedded code is src/frontend/src/services/realEstateService.js (the
RealEstateService class: its axios response interceptor, checkHealth,
chatQuery, getPropertyAmenities, negotiatePrice, finalizeDeal,
standardizeResponse and handleError) together with the handleApiError
utility from src/utils/errorHandler.js.

JavaScript values are modelled by the inductive type JVal; field access,
truthiness and the logical-or defaulting idiom (a || b) are modelled by
getField, truthy and jsOr. The nondeterministic clock call
new Date().toISOString() is modelled by threading an explicit now string.
Promise rejection (a raised failure as observed by an await) is modelled by
the error case of Except; a resolved response body is the ok case.
-/

inductive JVal where
  | null
  | undefined
  | bool (b : Bool)
  | num (n : Int)
  | str (s : String)
  | arr (xs : List JVal)
  | obj (fields : List (String × JVal))

/-- JavaScript truthiness of a value (NaN is not modelled; the arguments the
claims exercise never produce it). An empty array and an empty object are
truthy, the empty string and the number 0 are falsy. -/
def truthy : JVal → Bool
  | .null => false
  | .undefined => false
  | .bool b => b
  | .num n => n != 0
  | .str s => s != ""
  | .arr _ => true
  | .obj _ => true

/-- Lookup of a key in an object field list; the first binding wins. -/
def findField : List (String × JVal) → String → JVal
  | [], _ => .undefined
  | (k, v) :: rest, key => if k = key then v else findField rest key

/-- Property access v.key, yielding undefined when the key is missing or the
value is not an object. This also models the optional-chaining accesses
(v?.key) used by the source, which yield undefined on non-objects. -/
def getField : JVal → String → JVal
  | .obj fs, key => findField fs key
  | _, _ => .undefined

/-- The JavaScript defaulting idiom a || b: the left operand when truthy,
otherwise the right operand. -/
def jsOr (a b : JVal) : JVal :=
  if truthy a then a else b

/-- The comparison offer <= 0 from negotiatePrice. For numbers it is the
integer comparison; for strings JavaScript coerces numerically, modelled
here for integer-shaped strings; all other operand shapes compare false
(as NaN comparisons do). -/
def jsLeZero : JVal → Bool
  | .num n => decide (n ≤ 0)
  | .str s =>
    match s.toInt? with
    | some n => decide (n ≤ 0)
    | none => false
  | _ => false

/-- The keys of an object value, in order; empty for non-objects. -/
def jKeys : JVal → List String
  | .obj fs => fs.map Prod.fst
  | _ => []

/-- An HTTP response attached to a raised axios failure: its status code and
parsed body (error.response.status and error.response.data). -/
structure HTTPResp where
  status : Nat
  body : JVal

/-- A raised failure as observed by a catch block: the error message string
and the optional HTTP response (absent for network-level failures). -/
structure JSError where
  message : String
  response : Option HTTPResp

/-- The expression error.response?.data?.message used by both the response
interceptor and handleError. -/
def respDataMessage (e : JSError) : JVal :=
  match e.response with
  | some r => getField r.body "message"
  | none => JVal.undefined

/-- The body produced by the axios response interceptor error branch of
realEstateService.js: the rejected transport failure is converted into a
RESOLVED response whose data is a status error record with a message and a
timestamp and, notably, no data field. -/
def interceptErrorBody (e : JSError) (now : String) : JVal :=
  JVal.obj [
    ("status", JVal.str "error"),
    ("message", jsOr (respDataMessage e)
      (jsOr (JVal.str e.message) (JVal.str "Network error occurred"))),
    ("timestamp", JVal.str now)]

/-- standardizeResponse from realEstateService.js: each envelope field is the
raw field when truthy, with a fallback otherwise; the data field falls back
to the entire raw body when the raw data field is not truthy. -/
def standardizeResponse (data : JVal) (now : String) : JVal :=
  JVal.obj [
    ("status", jsOr (getField data "status") (JVal.str "success")),
    ("message", jsOr (getField data "message") (JVal.str "Success")),
    ("data", jsOr (getField data "data") data),
    ("timestamp", jsOr (getField data "timestamp") (JVal.str now))]

/-- handleError from realEstateService.js: an error envelope whose message
prefers error.response?.data?.message, then error.message, then the default
message, and whose data is always the empty object. -/
def handleError (e : JSError) (defaultMessage : String) (now : String) : JVal :=
  JVal.obj [
    ("status", JVal.str "error"),
    ("message", jsOr (respDataMessage e)
      (jsOr (JVal.str e.message) (JVal.str defaultMessage))),
    ("data", JVal.obj []),
    ("timestamp", JVal.str now)]

/-- checkHealth from realEstateService.js: on a resolved response it returns
response.data unnormalized; on a raised failure its catch block logs and
RETHROWS the error instead of recovering it into an envelope. -/
def checkHealth (outcome : Except JSError JVal) : Except JSError JVal :=
  match outcome with
  | .ok body => .ok body
  | .error e => .error e

/-- The inter-attempt delay of chatQuery, computed from the retry counter
AFTER it has been incremented for the failed attempt:
Math.min(1000 * Math.pow(2, retryCount), 5000). -/
def delayAfter (retryCount : Nat) : Nat :=
  Nat.min (1000 * 2 ^ retryCount) 5000

/-- The observable outcome of one chatQuery call: the returned envelope, the
number of attempts performed, and the list of backoff waits (in ms)
performed between attempts, in order. -/
structure ChatResult where
  envelope : JVal
  attempts : Nat
  delays : List Nat

/-- The handleError call after the retry loop. lastError is null only if the
loop body never ran, which cannot happen since maxRetries = 3 is positive;
that unreachable case is modelled as handleError on an empty error. -/
def handleErrorOpt : Option JSError → String → String → JVal
  | some e, d, now => handleError e d now
  | none, d, now => handleError { message := "", response := none } d now

/-- The while loop of chatQuery. The fuel argument is maxRetries minus the
current retryCount, count is the number of attempts already performed, and
outcomes gives the transport result of each attempt in order. On a caught
failure the counter is incremented and, when it is still below maxRetries,
a backoff wait of delayAfter (count + 1) is performed before the next
attempt; the loop never inspects the failure itself. -/
def chatGo (outcomes : Nat → Except JSError JVal) (now : String) :
    Nat → Nat → Option JSError → ChatResult
  | 0, count, lastErr =>
    ⟨handleErrorOpt lastErr "Failed after multiple attempts" now, count, []⟩
  | fuel + 1, count, _lastErr =>
    match outcomes count with
    | .ok body => ⟨standardizeResponse body now, count + 1, []⟩
    | .error e =>
      let rest := chatGo outcomes now fuel (count + 1) (some e)
      if fuel = 0 then rest
      else ⟨rest.envelope, rest.attempts, delayAfter (count + 1) :: rest.delays⟩

/-- chatQuery from realEstateService.js, with maxRetries = 3 as in the
source. The posted payload does not influence the observable contract and
is abstracted into the per-attempt transport outcomes. -/
def chatQuery (outcomes : Nat → Except JSError JVal) (now : String) : ChatResult :=
  chatGo outcomes now 3 0 none

/-- getPropertyAmenities from realEstateService.js: on a resolved body it
extracts amenities from data.data.amenities when that is truthy and
otherwise from the top-level amenities field, rebuilds a three-key data
object with empty-sequence and empty-mapping defaults, and passes the
result through standardizeResponse; on a raised failure it recovers with
handleError. -/
def getPropertyAmenities (outcome : Except JSError JVal) (now : String) : JVal :=
  match outcome with
  | .ok data =>
    standardizeResponse (JVal.obj [
      ("status", jsOr (getField data "status") (JVal.str "success")),
      ("message", jsOr (getField data "message")
        (JVal.str "Amenities retrieved successfully")),
      ("data", JVal.obj [
        ("amenities", jsOr
          (if truthy (getField data "data")
              && truthy (getField (getField data "data") "amenities")
           then getField (getField data "data") "amenities"
           else getField data "amenities")
          (JVal.arr [])),
        ("property_info",
          jsOr (getField (getField data "data") "property_info") (JVal.obj [])),
        ("amenity_score",
          jsOr (getField (getField data "data") "amenity_score") (JVal.obj []))]),
      ("timestamp", jsOr (getField data "timestamp") (JVal.str now))]) now
  | .error e => handleError e "Failed to retrieve amenities" now

/-- negotiatePrice from realEstateService.js: the guard
(!propertyId || !offer || offer <= 0) throws inside the try block, so the
catch recovers it with handleError before any network call; otherwise the
call is issued (second component true) and its outcome is normalized or
recovered. -/
def negotiatePrice (propertyId offer : JVal) (outcome : Except JSError JVal)
    (now : String) : JVal × Bool :=
  if !truthy propertyId || !truthy offer || jsLeZero offer then
    (handleError { message := "Invalid property ID or offer amount", response := none }
      "Failed to process negotiation" now, false)
  else
    match outcome with
    | .ok body => (standardizeResponse body now, true)
    | .error e => (handleError e "Failed to process negotiation" now, true)

/-- finalizeDeal from realEstateService.js: the guard (!propertyId) throws
inside the try block and is recovered with handleError before any network
call; otherwise the call is issued with the dealDetails payload (which does
not influence the observable contract). -/
def finalizeDeal (propertyId dealDetails : JVal) (outcome : Except JSError JVal)
    (now : String) : JVal × Bool :=
  if !truthy propertyId then
    (handleError { message := "Invalid property ID", response := none }
      "Failed to finalize deal" now, false)
  else
    match outcome with
    | .ok body => (standardizeResponse body now, true)
    | .error e => (handleError e "Failed to finalize deal" now, true)

/-- Does the character list begin with the given pattern. -/
def beginsWith : List Char → List Char → Bool
  | [], _ => true
  | _ :: _, [] => false
  | p :: ps, c :: cs => p == c && beginsWith ps cs

/-- Does the character list contain the pattern as a contiguous sublist. -/
def hasSubList : List Char → List Char → Bool
  | pat, [] => beginsWith pat []
  | pat, c :: cs => beginsWith pat (c :: cs) || hasSubList pat cs

/-- The JavaScript test s.includes(pat) used by handleApiError. -/
def strContains (s pat : String) : Bool :=
  hasSubList pat.toList s.toList

/-- createErrorResponse from src/utils/errorHandler.js. -/
def createErrorResponse (message : String) (now : String) : JVal :=
  JVal.obj [
    ("status", JVal.str "error"),
    ("message", JVal.str message),
    ("data", JVal.obj []),
    ("timestamp", JVal.str now)]

/-- A raised failure as the classifier sees it: besides the message string it
carries the discrete signals named by the spec (HTTP status code, deadline
expiry flag, connection failure flag). The source classifier reads only the
message field. -/
structure ApiError where
  message : String
  status : Option Nat
  isTimeout : Bool
  isConnFailure : Bool

/-- The branch cascade of handleApiError, a function of the message string
alone: substring tests for timeout, Failed to fetch, connect, 500 and 404,
with a generic fallback. -/
def classifyMessage (msg : String) (now : String) : JVal :=
  if strContains msg "timeout" then
    createErrorResponse "The request timed out. Please check your connection and try again." now
  else if strContains msg "Failed to fetch" || strContains msg "connect" then
    createErrorResponse "Unable to connect to the server. Please check if the server is running." now
  else if strContains msg "500" then
    createErrorResponse "Server error occurred. Please try again later." now
  else if strContains msg "404" then
    createErrorResponse "The requested resource was not found." now
  else
    createErrorResponse "An unexpected error occurred. Please try again later." now

/-- handleApiError from src/utils/errorHandler.js: every branch tests a
substring of error.message; no other field of the error is consulted. -/
def handleApiError (e : ApiError) (now : String) : JVal :=
  classifyMessage e.message now

/-- A concrete network-level raised failure (no HTTP response attached), as
axios raises it when the connection fails. -/
def netErr : JSError := { message := "Network Error", response := none }

/-- A transport that fails with the network failure on every attempt. -/
def allFailNet : Nat → Except JSError JVal := fun _ => Except.error netErr

/-- A concrete raised failure carrying an HTTP 404 response, the shape axios
raises for a NotFound status. -/
def notFoundErr : JSError :=
  { message := "Request failed with status code 404",
    response := some { status := 404, body := JVal.obj [("message", JVal.str "Not found")] } }

/-- A canonical success body for the chat endpoint. -/
def okChatBody : JVal :=
  JVal.obj [("status", JVal.str "success"), ("message", JVal.str "ok"),
    ("data", JVal.obj [("properties", JVal.arr [])])]

/-- A transport whose first attempt raises the 404 failure and whose later
attempts succeed. -/
def nfOutcomes : Nat → Except JSError JVal :=
  fun k => if k = 0 then Except.error notFoundErr else Except.ok okChatBody

/-- An already-canonical envelope whose message is the empty string. -/
def canonicalEmptyMsgEnv : JVal :=
  JVal.obj [("status", JVal.str "success"), ("message", JVal.str ""),
    ("data", JVal.obj []), ("timestamp", JVal.str "2024-01-01T00:00:00.000Z")]

/-- A failure flagged as deadline expiry whose message does not mention the
word timeout. -/
def flaggedTimeoutErrA : ApiError :=
  { message := "boom", status := none, isTimeout := true, isConnFailure := false }

/-- A failure flagged as deadline expiry whose message is the axios timeout
message. -/
def flaggedTimeoutErrB : ApiError :=
  { message := "timeout of 10000ms exceeded", status := none,
    isTimeout := true, isConnFailure := false }

@[simp] theorem truthy_null : truthy JVal.null = false := rfl

@[simp] theorem truthy_undefined : truthy JVal.undefined = false := rfl

@[simp] theorem truthy_bool (b : Bool) : truthy (JVal.bool b) = b := rfl

@[simp] theorem truthy_num (n : Int) : truthy (JVal.num n) = (n != 0) := rfl

@[simp] theorem truthy_str (s : String) : truthy (JVal.str s) = (s != "") := rfl

@[simp] theorem truthy_arr (xs : List JVal) : truthy (JVal.arr xs) = true := rfl

@[simp] theorem truthy_obj (fs : List (String × JVal)) : truthy (JVal.obj fs) = true := rfl

@[simp] theorem getField_obj (fs : List (String × JVal)) (key : String) :
    getField (JVal.obj fs) key = findField fs key := rfl

@[simp] theorem getField_null (key : String) : getField JVal.null key = JVal.undefined := rfl

@[simp] theorem getField_undefined (key : String) :
    getField JVal.undefined key = JVal.undefined := rfl

@[simp] theorem getField_bool (b : Bool) (key : String) :
    getField (JVal.bool b) key = JVal.undefined := rfl

@[simp] theorem getField_num (n : Int) (key : String) :
    getField (JVal.num n) key = JVal.undefined := rfl

@[simp] theorem getField_str (s : String) (key : String) :
    getField (JVal.str s) key = JVal.undefined := rfl

@[simp] theorem getField_arr (xs : List JVal) (key : String) :
    getField (JVal.arr xs) key = JVal.undefined := rfl

@[simp] theorem findField_nil (key : String) : findField [] key = JVal.undefined := rfl

@[simp] theorem findField_cons (k : String) (v : JVal) (rest : List (String × JVal))
    (key : String) :
    findField ((k, v) :: rest) key = if k = key then v else findField rest key := rfl

@[simp] theorem jsOr_def (a b : JVal) : jsOr a b = if truthy a then a else b := rfl

/-- Two failures sharing a message string but disagreeing on every discrete
structural signal. -/
def sharedMsgErrA : ApiError :=
  { message := "m", status := none, isTimeout := true, isConnFailure := false }

/-- The structural-signal opposite of the failure above, with the same
message string. -/
def sharedMsgErrB : ApiError :=
  { message := "m", status := some 500, isTimeout := false, isConnFailure := true }

/-- A truthy field value forces the containing value to be an object (field
access on every non-object yields undefined, which is falsy). -/
theorem truthy_getField_true {v : JVal} {k : String}
    (h : truthy (getField v k) = true) : truthy v = true := by
  cases v <;> simp [getField, truthy] at h ⊢

/-- C1 counterexample: the interceptor-converted failure body, passed through
standardizeResponse (as happens on the chatQuery success path), yields an
envelope with status error whose data is the whole raw body, not the empty
mapping. -/
theorem interceptor_standardize_violates_error_invariant :
    getField (standardizeResponse (interceptErrorBody netErr "T1") "T2") "status"
      = JVal.str "error"
    ∧ getField (standardizeResponse (interceptErrorBody netErr "T1") "T2") "data"
      ≠ JVal.obj [] := by
  refine ⟨rfl, ?_⟩
  show interceptErrorBody netErr "T1" ≠ JVal.obj []
  simp [interceptErrorBody]

/-- C1 (amended): envelopes produced by handleError satisfy the error
invariant (status error and empty data), but an interceptor-converted
failure body passed through standardizeResponse produces a status error
envelope whose data is the raw body itself rather than the empty mapping. -/
theorem error_invariant_amended (e : JSError) (d now now2 : String) :
    (getField (handleError e d now) "status" = JVal.str "error"
      ∧ getField (handleError e d now) "data" = JVal.obj [])
    ∧ (getField (standardizeResponse (interceptErrorBody e now) now2) "status"
        = JVal.str "error"
      ∧ getField (standardizeResponse (interceptErrorBody e now) now2) "data"
        = interceptErrorBody e now) :=
  ⟨⟨rfl, rfl⟩, ⟨rfl, rfl⟩⟩

/-- C2 counterexample: with every attempt failing, chatQuery performs three
attempts but the total backoff time is 6000 ms, not the 3000 ms the claim
computes. -/
theorem chatQuery_backoff_total_counterexample :
    (chatQuery allFailNet "T").attempts = 3
    ∧ (chatQuery allFailNet "T").delays.sum ≠ 3000 := by
  refine ⟨rfl, ?_⟩
  intro h
  rw [show (chatQuery allFailNet "T").delays.sum = 6000 from rfl] at h
  exact absurd h (by decide)

/-- C2 (amended): when every attempt fails, chatQuery performs exactly
maxAttempts = 3 attempts, and the two inter-attempt waits are
min(1000 * 2 ^ k, 5000) for k = 1, 2 (the counter is incremented before
the delay is computed), i.e. 2000 ms and 4000 ms, 6000 ms in total; the
returned envelope is handleError on the last failure. -/
theorem chatQuery_retry_bound_amended (outcomes : Nat → Except JSError JVal)
    (now : String) (e0 e1 e2 : JSError)
    (h0 : outcomes 0 = Except.error e0) (h1 : outcomes 1 = Except.error e1)
    (h2 : outcomes 2 = Except.error e2) :
    (chatQuery outcomes now).attempts = 3
    ∧ (chatQuery outcomes now).delays = [delayAfter 1, delayAfter 2]
    ∧ (chatQuery outcomes now).delays = [2000, 4000]
    ∧ (chatQuery outcomes now).delays.sum = 6000
    ∧ (chatQuery outcomes now).envelope
      = handleError e2 "Failed after multiple attempts" now := by
  have H : chatQuery outcomes now
      = ⟨handleError e2 "Failed after multiple attempts" now, 3, [2000, 4000]⟩ := by
    simp [chatQuery, chatGo, h0, h1, h2, handleErrorOpt, delayAfter]
  rw [H]
  exact ⟨rfl, rfl, rfl, rfl, rfl⟩

/-- C2 witness: the amended retry bound evaluated on the concrete
all-failures transport. -/
theorem chatQuery_retry_bound_amended_witness :
    (chatQuery allFailNet "T").attempts = 3
    ∧ (chatQuery allFailNet "T").delays.sum = 6000 := by
  have H := chatQuery_retry_bound_amended allFailNet "T" netErr netErr netErr rfl rfl rfl
  exact ⟨H.1, H.2.2.2.1⟩

/-- C3 counterexample: a NotFound-classified failure on the first attempt
does not stop chatQuery; a second attempt is performed after a 2000 ms
backoff wait, so the attempt count is 2, not 1. -/
theorem chatQuery_notFound_retries_counterexample :
    (chatQuery nfOutcomes "T").attempts = 2
    ∧ (chatQuery nfOutcomes "T").attempts ≠ 1
    ∧ (chatQuery nfOutcomes "T").delays = [2000] := by
  refine ⟨rfl, ?_, rfl⟩
  intro h
  rw [show (chatQuery nfOutcomes "T").attempts = 2 from rfl] at h
  exact absurd h (by decide)

/-- C3 (amended): the chatQuery retry loop never classifies the caught
failure; whatever the first failure is (including a 404 NotFound), a
backoff wait of 2000 ms and a second attempt follow, rather than exactly
one attempt with the classified failure surfaced immediately. -/
theorem chatQuery_no_classification_amended (outcomes : Nat → Except JSError JVal)
    (now : String) (e : JSError) (b : JVal)
    (h0 : outcomes 0 = Except.error e) (h1 : outcomes 1 = Except.ok b) :
    chatQuery outcomes now = ⟨standardizeResponse b now, 2, [2000]⟩ := by
  simp [chatQuery, chatGo, h0, h1, delayAfter]

/-- C3 witness: the amended no-classification behavior evaluated on the
concrete 404-then-success transport. -/
theorem chatQuery_no_classification_amended_witness :
    chatQuery nfOutcomes "T" = ⟨standardizeResponse okChatBody "T", 2, [2000]⟩ :=
  chatQuery_no_classification_amended nfOutcomes "T" notFoundErr okChatBody rfl rfl

/-- C4 counterexample: checkHealth does not capture a raised transport
failure into an error envelope; its catch block rethrows, so the failure
propagates past the facade boundary. -/
theorem checkHealth_rethrows_counterexample :
    checkHealth (Except.error netErr) = Except.error netErr
    ∧ (checkHealth (Except.error netErr)).isOk = false :=
  ⟨rfl, rfl⟩

/-- C4 (amended): chatQuery, getPropertyAmenities, negotiatePrice and
finalizeDeal are total and capture every raised transport failure into a
handleError envelope with status error and empty data; checkHealth is the
exception: it rethrows the caught failure past the facade boundary. -/
theorem facade_totality_amended (e : JSError) (now : String)
    (pid offer details : JVal)
    (hpid : truthy pid = true) (hoffer : truthy offer = true)
    (hle : jsLeZero offer = false) :
    getPropertyAmenities (Except.error e) now
      = handleError e "Failed to retrieve amenities" now
    ∧ negotiatePrice pid offer (Except.error e) now
      = (handleError e "Failed to process negotiation" now, true)
    ∧ finalizeDeal pid details (Except.error e) now
      = (handleError e "Failed to finalize deal" now, true)
    ∧ (chatQuery (fun _ => Except.error e) now).envelope
      = handleError e "Failed after multiple attempts" now
    ∧ (∀ d, getField (handleError e d now) "status" = JVal.str "error"
        ∧ getField (handleError e d now) "data" = JVal.obj [])
    ∧ checkHealth (Except.error e) = Except.error e := by
  refine ⟨rfl, ?_, ?_, rfl, fun d => ⟨rfl, rfl⟩, rfl⟩
  · simp [negotiatePrice, hpid, hoffer, hle]
  · simp [finalizeDeal, hpid]

/-- C4 witness: the amended totality facts evaluated at a concrete failure
and concrete facade arguments. -/
theorem facade_totality_amended_witness :
    negotiatePrice (JVal.str "42") (JVal.num 100) (Except.error netErr) "T"
      = (handleError netErr "Failed to process negotiation" "T", true)
    ∧ checkHealth (Except.error netErr) = Except.error netErr := by
  have H := facade_totality_amended netErr "T" (JVal.str "42") (JVal.num 100)
    (JVal.obj []) (by decide) (by decide) (by decide)
  exact ⟨H.2.1, H.2.2.2.2.2⟩

/-- C5: negotiatePrice short-circuits with a status error envelope and no
network call whenever propertyId is absent (falsy) or offer is not a
positive number; in particular negotiate(null, 100) performs no request;
with propertyId present and a positive offer the call is issued. -/
theorem negotiatePrice_validation (pid offer : JVal)
    (outcome : Except JSError JVal) (now : String) :
    ((truthy pid = false ∨ truthy offer = false ∨ jsLeZero offer = true) →
      (negotiatePrice pid offer outcome now).2 = false
      ∧ getField (negotiatePrice pid offer outcome now).1 "status" = JVal.str "error"
      ∧ getField (negotiatePrice pid offer outcome now).1 "data" = JVal.obj [])
    ∧ ((negotiatePrice JVal.null (JVal.num 100) outcome now).2 = false
      ∧ getField (negotiatePrice JVal.null (JVal.num 100) outcome now).1 "status"
        = JVal.str "error")
    ∧ (truthy pid = true → truthy offer = true → jsLeZero offer = false →
      (negotiatePrice pid offer outcome now).2 = true) := by
  refine ⟨?_, ⟨rfl, rfl⟩, ?_⟩
  · intro h
    rcases h with h | h | h <;>
      simp [negotiatePrice, h, handleError, respDataMessage]
  · intro h1 h2 h3
    cases outcome <;> simp [negotiatePrice, h1, h2, h3]

/-- C5 witness: the validation short-circuit at negotiate(null, 100) and the
issued call at a present propertyId with a positive offer. -/
theorem negotiatePrice_validation_witness :
    (negotiatePrice JVal.null (JVal.num 100) (Except.ok (JVal.obj [])) "T").2 = false
    ∧ (negotiatePrice (JVal.str "42") (JVal.num 100) (Except.ok (JVal.obj [])) "T").2
      = true := by
  have H := negotiatePrice_validation JVal.null (JVal.num 100)
    (Except.ok (JVal.obj [])) "T"
  have H2 := negotiatePrice_validation (JVal.str "42") (JVal.num 100)
    (Except.ok (JVal.obj [])) "T"
  exact ⟨(H.1 (Or.inl (by decide))).1, H2.2.2 (by decide) (by decide) (by decide)⟩

/-- C6: for every resolved backend body, the data of the envelope returned by
getPropertyAmenities has exactly the keys amenities, property_info and
amenity_score; amenities is taken from the nested data.amenities when that
is truthy, else from the top-level amenities field, else defaults to the
empty sequence, and the two mappings default to empty mappings; for the
flattened body with amenities Gym, Pool the envelope has status success and
that amenities sequence. -/
theorem getPropertyAmenities_normalized_shape (data : JVal) (now : String) :
    jKeys (getField (getPropertyAmenities (Except.ok data) now) "data")
      = ["amenities", "property_info", "amenity_score"]
    ∧ (truthy (getField (getField data "data") "amenities") = false →
        truthy (getField data "amenities") = false →
        getField (getField (getPropertyAmenities (Except.ok data) now) "data")
          "amenities" = JVal.arr [])
    ∧ (truthy (getField (getField data "data") "amenities") = true →
        getField (getField (getPropertyAmenities (Except.ok data) now) "data")
          "amenities" = getField (getField data "data") "amenities")
    ∧ (truthy (getField (getField data "data") "amenities") = false →
        truthy (getField data "amenities") = true →
        getField (getField (getPropertyAmenities (Except.ok data) now) "data")
          "amenities" = getField data "amenities")
    ∧ (truthy (getField (getField data "data") "property_info") = false →
        getField (getField (getPropertyAmenities (Except.ok data) now) "data")
          "property_info" = JVal.obj [])
    ∧ (truthy (getField (getField data "data") "amenity_score") = false →
        getField (getField (getPropertyAmenities (Except.ok data) now) "data")
          "amenity_score" = JVal.obj [])
    ∧ (data = JVal.obj [("amenities", JVal.arr [JVal.str "Gym", JVal.str "Pool"])] →
        getField (getPropertyAmenities (Except.ok data) now) "status"
          = JVal.str "success"
        ∧ getField (getField (getPropertyAmenities (Except.ok data) now) "data")
          "amenities" = JVal.arr [JVal.str "Gym", JVal.str "Pool"]) := by
  refine ⟨?_, ?_, ?_, ?_, ?_, ?_, ?_⟩
  · simp [getPropertyAmenities, standardizeResponse, jKeys]
  · intro h1 h2
    simp [getPropertyAmenities, standardizeResponse, h1, h2]
  · intro h1
    have hd := truthy_getField_true h1
    simp [getPropertyAmenities, standardizeResponse, h1, hd]
  · intro h1 h2
    simp [getPropertyAmenities, standardizeResponse, h1, h2]
  · intro h1
    simp [getPropertyAmenities, standardizeResponse, h1]
  · intro h1
    simp [getPropertyAmenities, standardizeResponse, h1]
  · rintro rfl
    exact ⟨rfl, rfl⟩

/-- C6 witness: the normalizer evaluated on the concrete flattened body. -/
theorem getPropertyAmenities_normalized_shape_witness :
    getField (getPropertyAmenities (Except.ok (JVal.obj [("amenities",
        JVal.arr [JVal.str "Gym", JVal.str "Pool"])])) "T") "status"
      = JVal.str "success"
    ∧ getField (getField (getPropertyAmenities (Except.ok (JVal.obj [("amenities",
        JVal.arr [JVal.str "Gym", JVal.str "Pool"])])) "T") "data") "amenities"
      = JVal.arr [JVal.str "Gym", JVal.str "Pool"] :=
  (getPropertyAmenities_normalized_shape
    (JVal.obj [("amenities", JVal.arr [JVal.str "Gym", JVal.str "Pool"])])
    "T").2.2.2.2.2.2 rfl

/-- C7 counterexample: an already-canonical envelope whose message is the
empty string is not preserved by standardizeResponse; the empty message is
replaced by the default Success, so the result is not equal to the input. -/
theorem standardizeResponse_not_idempotent_on_empty_message :
    getField canonicalEmptyMsgEnv "message" = JVal.str ""
    ∧ getField (standardizeResponse canonicalEmptyMsgEnv "T") "message"
      = JVal.str "Success"
    ∧ standardizeResponse canonicalEmptyMsgEnv "T" ≠ canonicalEmptyMsgEnv := by
  refine ⟨rfl, rfl, ?_⟩
  intro h
  have h2 : getField (standardizeResponse canonicalEmptyMsgEnv "T") "message"
      = getField canonicalEmptyMsgEnv "message" := by rw [h]
  rw [show getField (standardizeResponse canonicalEmptyMsgEnv "T") "message"
        = JVal.str "Success" from rfl,
      show getField canonicalEmptyMsgEnv "message" = JVal.str "" from rfl] at h2
  exact absurd (JVal.str.inj h2) (by decide)

/-- C7 (amended): standardizeResponse is the identity on canonical envelopes
whose status is success or error, whose message and timestamp strings are
non-empty, and whose data is a mapping; with an empty message (or empty
timestamp) string the field is replaced by its default instead. -/
theorem standardizeResponse_idempotent_amended (st msg ts now : String)
    (fs : List (String × JVal))
    (hst : st = "success" ∨ st = "error") (hmsg : msg ≠ "") (hts : ts ≠ "") :
    standardizeResponse (JVal.obj [("status", JVal.str st),
      ("message", JVal.str msg), ("data", JVal.obj fs),
      ("timestamp", JVal.str ts)]) now
    = JVal.obj [("status", JVal.str st), ("message", JVal.str msg),
      ("data", JVal.obj fs), ("timestamp", JVal.str ts)] := by
  rcases hst with h | h <;> subst h <;>
    simp [standardizeResponse, hmsg, hts]

/-- C7 witness: idempotence evaluated at a concrete canonical envelope. -/
theorem standardizeResponse_idempotent_amended_witness :
    standardizeResponse (JVal.obj [("status", JVal.str "success"),
      ("message", JVal.str "Found 3 matches"), ("data", JVal.obj []),
      ("timestamp", JVal.str "2024-01-01T00:00:00.000Z")]) "T"
    = JVal.obj [("status", JVal.str "success"),
      ("message", JVal.str "Found 3 matches"), ("data", JVal.obj []),
      ("timestamp", JVal.str "2024-01-01T00:00:00.000Z")] :=
  standardizeResponse_idempotent_amended "success" "Found 3 matches"
    "2024-01-01T00:00:00.000Z" "T" [] (Or.inl rfl) (by decide) (by decide)

/-- C8 counterexample: two failures agreeing on status code, deadline flag
and connection flag but with different message strings are classified
differently by handleApiError, and the deadline-flagged failure whose
message lacks the word timeout does not receive the fixed timeout
message. -/
theorem handleApiError_substring_counterexample :
    flaggedTimeoutErrA.status = flaggedTimeoutErrB.status
    ∧ flaggedTimeoutErrA.isTimeout = flaggedTimeoutErrB.isTimeout
    ∧ flaggedTimeoutErrA.isConnFailure = flaggedTimeoutErrB.isConnFailure
    ∧ getField (handleApiError flaggedTimeoutErrA "T") "message"
      = JVal.str "An unexpected error occurred. Please try again later."
    ∧ getField (handleApiError flaggedTimeoutErrB "T") "message"
      = JVal.str "The request timed out. Please check your connection and try again."
    ∧ handleApiError flaggedTimeoutErrA "T" ≠ handleApiError flaggedTimeoutErrB "T"
    ∧ getField (handleApiError flaggedTimeoutErrA "T") "message"
      ≠ JVal.str "The request timed out. Please check your connection and try again." := by
  refine ⟨rfl, rfl, rfl, rfl, rfl, ?_, ?_⟩
  · intro h
    have h2 : getField (handleApiError flaggedTimeoutErrA "T") "message"
        = getField (handleApiError flaggedTimeoutErrB "T") "message" := by rw [h]
    rw [show getField (handleApiError flaggedTimeoutErrA "T") "message"
          = JVal.str "An unexpected error occurred. Please try again later." from rfl,
        show getField (handleApiError flaggedTimeoutErrB "T") "message"
          = JVal.str "The request timed out. Please check your connection and try again."
          from rfl] at h2
    exact absurd (JVal.str.inj h2) (by decide)
  · intro h
    rw [show getField (handleApiError flaggedTimeoutErrA "T") "message"
          = JVal.str "An unexpected error occurred. Please try again later." from rfl] at h
    exact absurd (JVal.str.inj h) (by decide)

/-- C8 (amended): the classification of handleApiError is a function of the
message string alone: failures with equal messages classify identically
whatever their status code, deadline flag and connection flag are; an error
whose message contains the substring timeout receives the fixed timeout
message. -/
theorem handleApiError_message_only_amended (e1 e2 e3 : ApiError) (now : String)
    (h : e1.message = e2.message) :
    handleApiError e1 now = handleApiError e2 now
    ∧ (strContains e3.message "timeout" = true →
        getField (handleApiError e3 now) "message"
          = JVal.str "The request timed out. Please check your connection and try again.") := by
  constructor
  · simp [handleApiError, h]
  · intro ht
    simp [handleApiError, classifyMessage, ht, createErrorResponse]

/-- C8 witness: message-only classification evaluated on two failures that
share a message but disagree on every structural signal, and the fixed
timeout message on the axios timeout message string. -/
theorem handleApiError_message_only_amended_witness :
    handleApiError sharedMsgErrA "T" = handleApiError sharedMsgErrB "T"
    ∧ getField (handleApiError flaggedTimeoutErrB "T") "message"
      = JVal.str "The request timed out. Please check your connection and try again." := by
  have H := handleApiError_message_only_amended sharedMsgErrA sharedMsgErrB
    flaggedTimeoutErrB "T" rfl
  exact ⟨H.1, H.2 (by decide)⟩

/-- C9: when the raw body has no truthy data field, standardizeResponse
reuses the whole raw body as the envelope data, so a bare error body
reappears nested inside data, which is in particular not the empty
mapping. -/
theorem standardizeResponse_data_fallback (body : JVal) (m t now : String)
    (h : truthy (getField body "data") = false) :
    getField (standardizeResponse body now) "data" = body
    ∧ getField (standardizeResponse (JVal.obj [("status", JVal.str "error"),
        ("message", JVal.str m), ("timestamp", JVal.str t)]) now) "data"
      = JVal.obj [("status", JVal.str "error"), ("message", JVal.str m),
        ("timestamp", JVal.str t)]
    ∧ JVal.obj [("status", JVal.str "error"), ("message", JVal.str m),
        ("timestamp", JVal.str t)] ≠ JVal.obj [] := by
  refine ⟨?_, rfl, by simp⟩
  simp [standardizeResponse, h]

/-- C9 witness: the data fallback evaluated on a concrete bare error body. -/
theorem standardizeResponse_data_fallback_witness :
    getField (standardizeResponse (JVal.obj [("status", JVal.str "error"),
      ("message", JVal.str "boom"), ("timestamp", JVal.str "T0")]) "T") "data"
    = JVal.obj [("status", JVal.str "error"), ("message", JVal.str "boom"),
      ("timestamp", JVal.str "T0")] :=
  (standardizeResponse_data_fallback (JVal.obj [("status", JVal.str "error"),
    ("message", JVal.str "boom"), ("timestamp", JVal.str "T0")]) "boom" "T0" "T"
    (by decide)).1

/-- C10: negotiatePrice and finalizeDeal treat every falsy propertyId as
absent, including the number 0 and the empty string: the guard throws and
is recovered into a status error envelope with no network call issued. -/
theorem falsy_propertyId_no_network_call (pid offer details : JVal)
    (outcome : Except JSError JVal) (now : String)
    (h : truthy pid = false) :
    (negotiatePrice pid offer outcome now).2 = false
    ∧ getField (negotiatePrice pid offer outcome now).1 "status" = JVal.str "error"
    ∧ (finalizeDeal pid details outcome now).2 = false
    ∧ getField (finalizeDeal pid details outcome now).1 "status" = JVal.str "error"
    ∧ truthy (JVal.num 0) = false
    ∧ truthy (JVal.str "") = false := by
  refine ⟨?_, ?_, ?_, ?_, by decide, by decide⟩ <;>
    simp [negotiatePrice, finalizeDeal, h, handleError, respDataMessage]

/-- C10 witness: the falsy rejection evaluated at propertyId 0 for
negotiatePrice and at the empty string for finalizeDeal. -/
theorem falsy_propertyId_no_network_call_witness :
    (negotiatePrice (JVal.num 0) (JVal.num 100) (Except.ok (JVal.obj [])) "T").2
      = false
    ∧ (finalizeDeal (JVal.str "") (JVal.obj []) (Except.ok (JVal.obj [])) "T").2
      = false := by
  have H0 := falsy_propertyId_no_network_call (JVal.num 0) (JVal.num 100)
    (JVal.obj []) (Except.ok (JVal.obj [])) "T" (by decide)
  have H1 := falsy_propertyId_no_network_call (JVal.str "") (JVal.num 100)
    (JVal.obj []) (Except.ok (JVal.obj [])) "T" (by decide)
  exact ⟨H0.1, H1.2.2.1⟩
